import Mathlib

/-!
Shallow embedding of the detection request pipeline of
`src/backend/app.py` (river-plastic-detection).

Numbers that the Python code holds as floats are modelled as exact
rationals (`ℚ`); Python's `round(x, 2)` is modelled as round-half-to-even
on hundredths.  External effects (the YOLO model, the filesystem) are
modelled explicitly: the detector is a function parameter that either
returns results or fails with a message (a raised exception), and the
upload folder is a list of staged file paths threaded through the
handlers.
-/

namespace RiverPlastic

/-- Models the Python builtin `round` restricted to integers:
round-half-to-even on a rational. -/
def roundHalfEven (q : ℚ) : ℤ :=
  if q - ⌊q⌋ < 1/2 then ⌊q⌋
  else if 1/2 < q - ⌊q⌋ then ⌊q⌋ + 1
  else if ⌊q⌋ % 2 = 0 then ⌊q⌋ else ⌊q⌋ + 1

/-- Models Python's `round(x, 2)` (two decimal places, half to even). -/
def pyRound2 (q : ℚ) : ℚ := (roundHalfEven (100 * q) : ℚ) / 100

/-- Models the ultralytics `Boxes` object as read by
`process_detection_results`: its `len()` and the three per-field tensors
`conf`, `cls`, `xyxy`, each of which the code reads defensively
(`... if boxes.conf is not None else []`, index guards `i < len(...)`). -/
structure Boxes where
  nboxes : Nat
  conf : Option (List ℚ)
  cls : Option (List ℚ)
  xyxy : Option (List (ℚ × ℚ × ℚ × ℚ))
deriving DecidableEq, Repr

/-- One element of the `results` list returned by `model.predict`:
its `boxes` attribute may be `None`. -/
structure YoloResult where
  boxes : Option Boxes
deriving DecidableEq, Repr

/-- One entry of the `bounding_boxes` list built by
`process_detection_results` (the dict with keys
x1, y1, x2, y2, confidence, class). -/
structure BBox where
  x1 : ℚ
  y1 : ℚ
  x2 : ℚ
  y2 : ℚ
  confidence : ℚ
  cls : String
deriving DecidableEq, Repr

/-- The `environmental_impact` sub-dict of a report. -/
structure EnvironmentalImpact where
  severity : String
  recommendation : String
deriving DecidableEq, Repr

/-- The dict returned by `process_detection_results`. -/
structure DetectionReport where
  detections : Nat
  confidence : ℚ
  plastic_types : List String
  bounding_boxes : List BBox
  environmental_impact : EnvironmentalImpact
deriving DecidableEq, Repr

/-- The report returned on both zero-detection early returns
(`app.py` lines 47-57 and 62-72). -/
def emptyReport : DetectionReport :=
  { detections := 0
    confidence := 0
    plastic_types := []
    bounding_boxes := []
    environmental_impact :=
      { severity := "Low", recommendation := "No plastic detected" } }

/-- The `recommendations` dict of `app.py` lines 101-105, read at the key
`severity` (which is always one of the three keys). -/
def recommendations (severity : String) : String :=
  if severity = "High" then
    "Immediate cleanup required - High plastic pollution detected"
  else if severity = "Medium" then
    "Cleanup recommended - Moderate plastic pollution found"
  else
    "Monitor area - Low level plastic pollution detected"

/-- `process_detection_results` of `app.py` lines 45-116, line by line:
empty `results` or absent/empty `boxes` give `emptyReport`; otherwise the
count is `len(boxes)`, the averaged confidence comes from `boxes.conf`,
the box dicts are built over `range(len(xyxy))` with index guards, and
severity is the two-way conditional on the count. -/
def process_detection_results (results : List YoloResult) : DetectionReport :=
  match results with
  | [] => emptyReport
  | result :: _ =>
    match result.boxes with
    | none => emptyReport
    | some boxes =>
      if boxes.nboxes = 0 then emptyReport
      else
        let detections := boxes.nboxes
        let confidences := boxes.conf.getD []
        let classes := boxes.cls.getD []
        let xyxy := boxes.xyxy.getD []
        let avg_confidence : ℚ :=
          if confidences.length > 0 then
            confidences.sum / (confidences.length : ℚ)
          else 0
        let class_names := List.replicate classes.length "plastic"
        let bounding_boxes :=
          (List.range xyxy.length).map (fun i =>
            let b := xyxy.getD i (0, 0, 0, 0)
            { x1 := b.1
              y1 := b.2.1
              x2 := b.2.2.1
              y2 := b.2.2.2
              confidence := confidences.getD i 0
              cls := class_names.getD i "plastic" : BBox })
        let severity :=
          if detections > 5 then "High"
          else if detections > 1 then "Medium"
          else "Low"
        { detections := detections
          confidence := pyRound2 avg_confidence
          plastic_types := class_names.dedup
          bounding_boxes := bounding_boxes
          environmental_impact :=
            { severity := severity
              recommendation := recommendations severity } }

/-- An uploaded file as the handlers see it: only its `filename`
attribute is inspected. -/
structure UploadedFile where
  filename : String
deriving DecidableEq, Repr

/-- A single-image detection request: the optional `image` file field and
the optional `confidence` form field (the raw string, parsed with
`float(...)`). -/
structure SingleRequest where
  image : Option UploadedFile
  confidence_form : Option String
deriving DecidableEq, Repr

/-- `os.path.join(UPLOAD_FOLDER, f"{file_id}.jpg")` of `app.py` lines
145-146. -/
def uploadPath (file_id : String) : String := "uploads/" ++ file_id ++ ".jpg"

/-- `os.remove(path)` on a filesystem modelled as the list of existing
paths: removes the path when present, raises (`none`) when absent. -/
def os_remove (path : String) (store : List String) : Option (List String) :=
  if path ∈ store then some (store.filter (fun p => p ≠ path)) else none

/-- The cleanup idiom `if os.path.exists(filepath): os.remove(filepath)`
(`app.py` lines 194-195 and 279-280); `none` would mean the raised
exception the guard is there to prevent. -/
def cleanup (path : String) (store : List String) : Option (List String) :=
  if path ∈ store then os_remove path store else some store

/-- `float(request.form.get('confidence', 0.25))` of `app.py` line 152:
an absent form field yields the float default 0.25, a present one goes
through `float(...)`, which may raise (`parseFloat _ = none`). -/
def parseConfidence (parseFloat : String → Option ℚ)
    (form : Option String) : Option ℚ :=
  match form with
  | none => some (1/4)
  | some s => parseFloat s

/-- The message of the `ValueError` raised by `float(s)` on a
non-numeric string. -/
def floatErrorMsg (s : String) : String :=
  "could not convert string to float: " ++ s

/-- The successful response body of `/api/detect` (`app.py` lines
184-191); the timestamp is external and not modelled. -/
structure SingleResponse where
  file_id : String
  filename : String
  detection_results : DetectionReport
  annotated_image : Option String
deriving DecidableEq, Repr

/-- Outcome of the single-image endpoint: either a JSON error envelope
`{'error': msg}` with an HTTP status, or the 200 success body. -/
inductive SingleOutcome where
  | errorResp (status : Nat) (msg : String)
  | ok (body : SingleResponse)
deriving DecidableEq, Repr

/-- The HTTP status of a `SingleOutcome` (a success body is served
with 200). -/
def SingleOutcome.statusOf : SingleOutcome → Nat
  | .errorResp s _ => s
  | .ok _ => 200

/-- `detect_plastic` of `app.py` lines 127-201 as a function of its
external collaborators: `modelLoaded` is `model is not None`,
`parseFloat` is the `float` builtin, `predict` is
`model.predict(source, conf, ...)` (`.error` = raised exception),
`annotated` is the base64 of the annotated output when one exists,
`file_id` is the generated uuid, and `store` is the upload folder.
Returns the response, the final upload folder, and the list of
`(source, conf)` calls made to the detector.  The `try`/`except` of the
source catches any exception after validation and maps it to
`500 {'error': 'Detection failed: ...'}`; note the staged file is only
removed on the path that reaches line 194. -/
def detect_plastic (modelLoaded : Bool) (req : SingleRequest)
    (parseFloat : String → Option ℚ)
    (predict : String → ℚ → Except String (List YoloResult))
    (annotated : Option String) (file_id : String) (store : List String) :
    SingleOutcome × List String × List (String × ℚ) :=
  if ¬ modelLoaded then (.errorResp 500 "Model not loaded", store, [])
  else
    match req.image with
    | none => (.errorResp 400 "No image file provided", store, [])
    | some file =>
      if file.filename = "" then
        (.errorResp 400 "No image file selected", store, [])
      else
        let filepath := uploadPath file_id
        let store1 := filepath :: store
        match req.confidence_form, parseConfidence parseFloat req.confidence_form with
        | some s, none =>
          (.errorResp 500 ("Detection failed: " ++ floatErrorMsg s), store1, [])
        | _, none =>
          (.errorResp 500 "Detection failed: float() argument error", store1, [])
        | _, some conf =>
          match predict filepath conf with
          | .error e =>
            (.errorResp 500 ("Detection failed: " ++ e), store1, [(filepath, conf)])
          | .ok results =>
            let detection_data := process_detection_results results
            let resp : SingleResponse :=
              { file_id := file_id
                filename := file.filename
                detection_results := detection_data
                annotated_image := annotated }
            match cleanup filepath store1 with
            | none =>
              (.errorResp 500 "Detection failed: removal error", store1,
                [(filepath, conf)])
            | some store2 => (.ok resp, store2, [(filepath, conf)])

/-- One entry of the `batch_results` list (`app.py` lines 272-276). -/
structure BatchEntry where
  filename : String
  file_id : String
  results : DetectionReport
deriving DecidableEq, Repr

/-- Outcome of the batch endpoint: an error envelope or the 200 body
with `batch_id`, `processed_images` and the ordered `results`. -/
inductive BatchOutcome where
  | errorResp (status : Nat) (msg : String)
  | ok (batch_id : String) (processed_images : Nat) (results : List BatchEntry)
deriving DecidableEq, Repr

/-- The HTTP status of a `BatchOutcome`. -/
def BatchOutcome.statusOf : BatchOutcome → Nat
  | .errorResp s _ => s
  | .ok _ _ _ => 200

/-- The per-image loop of `batch_detect` (`app.py` lines 250-280) over
the enumerated file list: entries with an empty filename are skipped
(`continue`), each processed file is staged, detected at the literal
threshold 0.25, normalized, appended in order, and its staged file
cleaned up.  A raised exception aborts the loop (`.error`), carrying the
upload folder and detector calls so far. -/
def batchLoop (predict : String → ℚ → Except String (List YoloResult))
    (batch_id : String) :
    List (Nat × UploadedFile) → List String →
    Except (String × List String × List (String × ℚ))
      (List BatchEntry × List String × List (String × ℚ))
  | [], store => .ok ([], store, [])
  | (i, file) :: rest, store =>
    if file.filename = "" then batchLoop predict batch_id rest store
    else
      let file_id := batch_id ++ "_" ++ toString i
      let filepath := uploadPath file_id
      let store1 := filepath :: store
      match predict filepath (1/4) with
      | .error e => .error (e, store1, [(filepath, 1/4)])
      | .ok results =>
        let detection_data := process_detection_results results
        let entry : BatchEntry :=
          { filename := file.filename
            file_id := file_id
            results := detection_data }
        match cleanup filepath store1 with
        | none => .error ("removal error", store1, [(filepath, 1/4)])
        | some store2 =>
          match batchLoop predict batch_id rest store2 with
          | .ok (entries, store3, calls) =>
            .ok (entry :: entries, store3, (filepath, 1/4) :: calls)
          | .error (e, store3, calls) =>
            .error (e, store3, (filepath, 1/4) :: calls)

/-- `batch_detect` of `app.py` lines 236-291: `clientConf` is the
client-supplied confidence form value, which the handler never reads
(batch mode hardcodes `conf=0.25` at line 263); an empty `files` list is
the only way to the 400 branch; on success `processed_images` is
`len(batch_results)`. -/
def batch_detect (modelLoaded : Bool) (_clientConf : Option String)
    (files : List UploadedFile)
    (predict : String → ℚ → Except String (List YoloResult))
    (batch_id : String) (store : List String) :
    BatchOutcome × List String × List (String × ℚ) :=
  if ¬ modelLoaded then (.errorResp 500 "Model not loaded", store, [])
  else if files = [] then
    (.errorResp 400 "No image files provided", store, [])
  else
    match batchLoop predict batch_id files.enum store with
    | .ok (entries, store1, calls) =>
      (.ok batch_id entries.length entries, store1, calls)
    | .error (e, store1, calls) =>
      (.errorResp 500 ("Batch processing failed: " ++ e), store1, calls)

/-! ## Helper lemmas -/

/-- Evaluation rule for `pyRound2` given the floor of `100 * q`. -/
theorem pyRound2_eval (q : ℚ) (f : ℤ) (h1 : (f : ℚ) ≤ 100 * q)
    (h2 : 100 * q < f + 1) :
    pyRound2 q =
      (if 100 * q - f < 1/2 then (f : ℚ)
       else if 1/2 < 100 * q - f then (f : ℚ) + 1
       else if f % 2 = 0 then (f : ℚ) else (f : ℚ) + 1) / 100 := by
  have hf : ⌊(100 * q : ℚ)⌋ = f := Int.floor_eq_iff.mpr ⟨h1, h2⟩
  unfold pyRound2 roundHalfEven
  rw [hf]
  split_ifs <;> push_cast <;> ring

/-- The severity of every report is the count-threshold conditional. -/
theorem process_severity (results : List YoloResult) :
    (process_detection_results results).environmental_impact.severity =
      (if 5 < (process_detection_results results).detections then "High"
       else if 1 < (process_detection_results results).detections then "Medium"
       else "Low") := by
  match results with
  | [] => rfl
  | ⟨none⟩ :: rest => rfl
  | ⟨some b⟩ :: rest =>
    by_cases hb : b.nboxes = 0
    · simp [process_detection_results, hb, emptyReport]
    · simp only [process_detection_results, hb, if_false]

/-- Inputs with no detections: empty result list, absent boxes, or zero
boxes. -/
def zeroDetections (results : List YoloResult) : Bool :=
  match results with
  | [] => true
  | r :: _ =>
    match r.boxes with
    | none => true
    | some b => b.nboxes = 0

/-- Zero-detection inputs reach one of the two early returns. -/
theorem process_zero_eq_empty (results : List YoloResult)
    (h : zeroDetections results = true) :
    process_detection_results results = emptyReport := by
  match results with
  | [] => rfl
  | ⟨none⟩ :: rest => rfl
  | ⟨some b⟩ :: rest =>
    simp only [zeroDetections, decide_eq_true_eq] at h
    simp [process_detection_results, h]

/-! ## C1: severity thresholds -/

/-- C1: for every report produced by `process_detection_results` with
detection count c, the severity is exactly High when c > 5, Medium when
1 < c ≤ 5, and Low when c ≤ 1. -/
theorem severity_matches_count (results : List YoloResult) :
    ((process_detection_results results).environmental_impact.severity = "High" ↔
      5 < (process_detection_results results).detections) ∧
    ((process_detection_results results).environmental_impact.severity = "Medium" ↔
      1 < (process_detection_results results).detections ∧
        (process_detection_results results).detections ≤ 5) ∧
    ((process_detection_results results).environmental_impact.severity = "Low" ↔
      (process_detection_results results).detections ≤ 1) := by
  refine ⟨?_, ?_, ?_⟩ <;> rw [process_severity results] <;> split_ifs with h1 h2
  · exact iff_of_true rfl h1
  · exact iff_of_false (by decide) h1
  · exact iff_of_false (by decide) h1
  · exact iff_of_false (by decide) (by omega)
  · exact iff_of_true rfl ⟨h2, by omega⟩
  · exact iff_of_false (by decide) (by omega)
  · exact iff_of_false (by decide) (by omega)
  · exact iff_of_false (by decide) (by omega)
  · exact iff_of_true rfl (by omega)

/-! ## C2: zero-detection report -/

/-- C2: every input with zero detections (empty result list, absent or
empty boxes) yields the report with count 0, confidence 0.0, empty types,
empty boxes, severity Low, recommendation "No plastic detected". -/
theorem zero_detections_report (results : List YoloResult)
    (h : zeroDetections results = true) :
    (process_detection_results results).detections = 0 ∧
    (process_detection_results results).confidence = 0 ∧
    (process_detection_results results).plastic_types = [] ∧
    (process_detection_results results).bounding_boxes = [] ∧
    (process_detection_results results).environmental_impact.severity = "Low" ∧
    (process_detection_results results).environmental_impact.recommendation =
      "No plastic detected" := by
  rw [process_zero_eq_empty results h]
  exact ⟨rfl, rfl, rfl, rfl, rfl, rfl⟩

/-- Witness for C2 at a concrete zero-detection input (a result whose
boxes tensor is present but empty). -/
theorem zero_detections_report_witness :
    zeroDetections [⟨some ⟨0, some [], some [], some []⟩⟩] = true ∧
    (process_detection_results [⟨some ⟨0, some [], some [], some []⟩⟩]).detections = 0 ∧
    (process_detection_results [⟨some ⟨0, some [], some [], some []⟩⟩]).confidence = 0 ∧
    (process_detection_results [⟨some ⟨0, some [], some [], some []⟩⟩]).plastic_types = [] ∧
    (process_detection_results [⟨some ⟨0, some [], some [], some []⟩⟩]).bounding_boxes = [] ∧
    (process_detection_results
      [⟨some ⟨0, some [], some [], some []⟩⟩]).environmental_impact.severity = "Low" ∧
    (process_detection_results
      [⟨some ⟨0, some [], some [], some []⟩⟩]).environmental_impact.recommendation =
      "No plastic detected" :=
  ⟨by decide, zero_detections_report [⟨some ⟨0, some [], some [], some []⟩⟩] (by decide)⟩

/-! ## C3: report invariants -/

/-- Reading a list at every index of `range` of its length recovers the
list. -/
theorem getD_range_eq {α : Type} (d : α) (cs : List α) :
    (List.range cs.length).map (fun i => cs.getD i d) = cs := by
  induction cs with
  | nil => rfl
  | cons c cs ih =>
    rw [List.length_cons, List.range_succ_eq_map, List.map_cons, List.map_map]
    simp only [Function.comp_def, List.getD_cons_zero, List.getD_cons_succ]
    rw [ih]

/-- The per-field tensors of a `Boxes` object are all present and agree
with its length (what ultralytics in fact guarantees). -/
def boxesAligned (b : Boxes) : Bool :=
  match b.conf, b.cls, b.xyxy with
  | some cs, some ks, some xs =>
    cs.length = b.nboxes && (ks.length = b.nboxes && xs.length = b.nboxes)
  | _, _, _ => false

/-- The first result's boxes, when any, are aligned. -/
def resultsAligned (results : List YoloResult) : Bool :=
  match results with
  | [] => true
  | r :: _ =>
    match r.boxes with
    | none => true
    | some b => boxesAligned b

/-- C3 counterexample: a raw detection whose `xyxy` tensor is absent
while `len(boxes) = 2` produces a report whose detection count (2)
differs from the length of its bounding-box sequence (0); and even on a
fully aligned input the confidence field is the rounded mean
(0.3, 0.5, 0.9 give 0.57), not the exact mean 17/30, refuting the
claimed invariant as stated. -/
theorem count_ne_boxes_len_counterexample :
    ¬ ((process_detection_results
          [⟨some ⟨2, some [1/2, 1/2], some [0, 0], none⟩⟩]).detections =
        (process_detection_results
          [⟨some ⟨2, some [1/2, 1/2], some [0, 0], none⟩⟩]).bounding_boxes.length) ∧
    ¬ ((process_detection_results
          [⟨some ⟨3, some [3/10, 1/2, 9/10], some [0, 0, 0],
            some [(0, 0, 1, 1), (0, 0, 1, 1), (0, 0, 1, 1)]⟩⟩]).confidence =
        ((process_detection_results
            [⟨some ⟨3, some [3/10, 1/2, 9/10], some [0, 0, 0],
              some [(0, 0, 1, 1), (0, 0, 1, 1), (0, 0, 1, 1)]⟩⟩]).bounding_boxes.map
          BBox.confidence).sum /
        ((process_detection_results
            [⟨some ⟨3, some [3/10, 1/2, 9/10], some [0, 0, 0],
              some [(0, 0, 1, 1), (0, 0, 1, 1),
                (0, 0, 1, 1)]⟩⟩]).bounding_boxes.length : ℚ)) := by
  constructor
  · decide
  · intro h
    rw [show (process_detection_results
          [⟨some ⟨3, some [3/10, 1/2, 9/10], some [0, 0, 0],
            some [(0, 0, 1, 1), (0, 0, 1, 1), (0, 0, 1, 1)]⟩⟩]).confidence =
        pyRound2 (([3/10, 1/2, 9/10] : List ℚ).sum /
          (([3/10, 1/2, 9/10] : List ℚ).length : ℚ)) from rfl,
      show ((process_detection_results
          [⟨some ⟨3, some [3/10, 1/2, 9/10], some [0, 0, 0],
            some [(0, 0, 1, 1), (0, 0, 1, 1), (0, 0, 1, 1)]⟩⟩]).bounding_boxes.map
        BBox.confidence) = ([3/10, 1/2, 9/10] : List ℚ) from rfl,
      show (process_detection_results
          [⟨some ⟨3, some [3/10, 1/2, 9/10], some [0, 0, 0],
            some [(0, 0, 1, 1), (0, 0, 1, 1),
              (0, 0, 1, 1)]⟩⟩]).bounding_boxes.length = 3 from rfl,
      show ([3/10, 1/2, 9/10] : List ℚ).sum /
          (([3/10, 1/2, 9/10] : List ℚ).length : ℚ) = 17/30 by
        norm_num [List.sum_cons, List.sum_nil],
      pyRound2_eval (17/30) 56 (by norm_num) (by norm_num)] at h
    norm_num [List.sum_cons, List.sum_nil] at h

/-- C3 amended: when the per-field arrays are present and their lengths
equal the box count, the report's count equals the length of its
bounding-box sequence and its confidence is the mean of the box
confidences rounded to two decimals (0 when the count is 0). -/
theorem count_eq_boxes_len_of_aligned (results : List YoloResult)
    (h : resultsAligned results = true) :
    (process_detection_results results).detections =
      (process_detection_results results).bounding_boxes.length ∧
    (process_detection_results results).confidence =
      (if (process_detection_results results).detections = 0 then 0
       else pyRound2
         (((process_detection_results results).bounding_boxes.map BBox.confidence).sum /
           ((process_detection_results results).bounding_boxes.length : ℚ))) := by
  match results with
  | [] => exact ⟨rfl, rfl⟩
  | ⟨none⟩ :: rest => exact ⟨rfl, rfl⟩
  | ⟨some b⟩ :: rest =>
    by_cases hb : b.nboxes = 0
    · rw [process_zero_eq_empty (⟨some b⟩ :: rest) (by simp [zeroDetections, hb])]
      exact ⟨rfl, rfl⟩
    · simp only [resultsAligned, boxesAligned] at h
      obtain ⟨n, conf, cls, xyxy⟩ := b
      match conf, cls, xyxy with
      | some cs, some ks, some xs =>
        simp only [Bool.and_eq_true, decide_eq_true_eq] at h
        obtain ⟨hcs, hks, hxs⟩ := h
        simp only at hb
        simp only [process_detection_results, hb, if_false, Option.getD_some]
        constructor
        · simp [hxs]
        · have hlen : xs.length = cs.length := by rw [hcs, hxs]
          have hmap :
              ((List.range xs.length).map (fun i =>
                  ({ x1 := (xs.getD i (0, 0, 0, 0)).1
                     y1 := (xs.getD i (0, 0, 0, 0)).2.1
                     x2 := (xs.getD i (0, 0, 0, 0)).2.2.1
                     y2 := (xs.getD i (0, 0, 0, 0)).2.2.2
                     confidence := cs.getD i 0
                     cls := (List.replicate ks.length "plastic").getD i "plastic" } :
                    BBox))).map BBox.confidence = cs := by
            rw [List.map_map]
            simp only [Function.comp_def]
            rw [hlen, getD_range_eq]
          simp only [List.map_map, Function.comp_def] at hmap ⊢
          rw [hmap]
          have hcpos : 0 < cs.length := by omega
          simp only [List.length_map, List.length_range, hb, if_false, hcpos, if_pos,
            gt_iff_lt]
          rw [hlen]

/-- Witness for the amended C3 at a concrete aligned input with three
boxes. -/
theorem count_eq_boxes_len_of_aligned_witness :
    resultsAligned
      [⟨some ⟨3, some [2/5, 3/5, 4/5], some [0, 0, 0],
        some [(0, 0, 1, 1), (0, 0, 1, 1), (0, 0, 1, 1)]⟩⟩] = true ∧
    ((process_detection_results
        [⟨some ⟨3, some [2/5, 3/5, 4/5], some [0, 0, 0],
          some [(0, 0, 1, 1), (0, 0, 1, 1), (0, 0, 1, 1)]⟩⟩]).detections =
      (process_detection_results
        [⟨some ⟨3, some [2/5, 3/5, 4/5], some [0, 0, 0],
          some [(0, 0, 1, 1), (0, 0, 1, 1), (0, 0, 1, 1)]⟩⟩]).bounding_boxes.length ∧
    (process_detection_results
        [⟨some ⟨3, some [2/5, 3/5, 4/5], some [0, 0, 0],
          some [(0, 0, 1, 1), (0, 0, 1, 1), (0, 0, 1, 1)]⟩⟩]).confidence =
      (if (process_detection_results
            [⟨some ⟨3, some [2/5, 3/5, 4/5], some [0, 0, 0],
              some [(0, 0, 1, 1), (0, 0, 1, 1), (0, 0, 1, 1)]⟩⟩]).detections = 0 then 0
       else pyRound2
         (((process_detection_results
              [⟨some ⟨3, some [2/5, 3/5, 4/5], some [0, 0, 0],
                some [(0, 0, 1, 1), (0, 0, 1, 1), (0, 0, 1, 1)]⟩⟩]).bounding_boxes.map
            BBox.confidence).sum /
           ((process_detection_results
              [⟨some ⟨3, some [2/5, 3/5, 4/5], some [0, 0, 0],
                some [(0, 0, 1, 1), (0, 0, 1, 1),
                  (0, 0, 1, 1)]⟩⟩]).bounding_boxes.length : ℚ)))) :=
  ⟨by decide,
    count_eq_boxes_len_of_aligned
      [⟨some ⟨3, some [2/5, 3/5, 4/5], some [0, 0, 0],
        some [(0, 0, 1, 1), (0, 0, 1, 1), (0, 0, 1, 1)]⟩⟩] (by decide)⟩

/-! ## C5: averaged confidence -/

/-- C5: for a non-empty confidence array matching the box count, the
report's confidence is the arithmetic mean of the confidences rounded to
two decimal places. -/
theorem confidence_is_rounded_mean (b : Boxes) (cs : List ℚ) (rest : List YoloResult)
    (hconf : b.conf = some cs) (hne : cs ≠ [])
    (hlen : cs.length = b.nboxes) :
    (process_detection_results (⟨some b⟩ :: rest)).confidence =
      pyRound2 (cs.sum / (cs.length : ℚ)) := by
  have hb : ¬ (b.nboxes = 0) := by
    rw [← hlen]
    simpa using hne
  have hpos : 0 < cs.length := List.length_pos.mpr hne
  simp only [process_detection_results, hb, if_false, hconf, Option.getD_some,
    gt_iff_lt, hpos, if_pos]

/-- Witness for C5: confidences [0.3, 0.5, 0.9] give confidence 0.57,
and [0.4, 0.6, 0.8] give 0.60. -/
theorem confidence_is_rounded_mean_witness :
    (process_detection_results
      [⟨some ⟨3, some [3/10, 1/2, 9/10], some [0, 0, 0],
        some [(0, 0, 1, 1), (0, 0, 1, 1), (0, 0, 1, 1)]⟩⟩]).confidence = 57/100 ∧
    (process_detection_results
      [⟨some ⟨3, some [2/5, 3/5, 4/5], some [0, 0, 0],
        some [(0, 0, 1, 1), (0, 0, 1, 1), (0, 0, 1, 1)]⟩⟩]).confidence = 60/100 :=
  ⟨(confidence_is_rounded_mean ⟨3, some [3/10, 1/2, 9/10], some [0, 0, 0],
      some [(0, 0, 1, 1), (0, 0, 1, 1), (0, 0, 1, 1)]⟩ [3/10, 1/2, 9/10] [] rfl
      (by decide) (by decide)).trans (by
        rw [show ([3/10, 1/2, 9/10] : List ℚ).sum / (([3/10, 1/2, 9/10] : List ℚ).length : ℚ) =
            17/30 by norm_num [List.sum_cons, List.sum_nil]]
        rw [pyRound2_eval (17/30) 56 (by norm_num) (by norm_num)]
        norm_num),
   (confidence_is_rounded_mean ⟨3, some [2/5, 3/5, 4/5], some [0, 0, 0],
      some [(0, 0, 1, 1), (0, 0, 1, 1), (0, 0, 1, 1)]⟩ [2/5, 3/5, 4/5] [] rfl
      (by decide) (by decide)).trans (by
        rw [show ([2/5, 3/5, 4/5] : List ℚ).sum / (([2/5, 3/5, 4/5] : List ℚ).length : ℚ) =
            3/5 by norm_num [List.sum_cons, List.sum_nil]]
        rw [pyRound2_eval (3/5) 60 (by norm_num) (by norm_num)]
        norm_num)⟩

/-! ## C8: recommendation strings -/

/-- Reports with at least one detection take their recommendation from
the `recommendations` table at the severity key. -/
theorem process_recommendation (results : List YoloResult)
    (h : 1 ≤ (process_detection_results results).detections) :
    (process_detection_results results).environmental_impact.recommendation =
      recommendations (process_detection_results results).environmental_impact.severity := by
  match results with
  | [] => exact absurd h (Nat.not_succ_le_zero 0)
  | ⟨none⟩ :: rest => exact absurd h (Nat.not_succ_le_zero 0)
  | ⟨some b⟩ :: rest =>
    by_cases hb : b.nboxes = 0
    · rw [process_zero_eq_empty (⟨some b⟩ :: rest) (by simp [zeroDetections, hb])] at h
      exact absurd h (by decide)
    · simp only [process_detection_results, hb, if_false]

/-- C8: for every report with at least one detection, the recommendation
is the fixed literal string of its severity level. -/
theorem recommendation_matches_severity (results : List YoloResult)
    (h : 1 ≤ (process_detection_results results).detections) :
    ((process_detection_results results).environmental_impact.severity = "High" →
      (process_detection_results results).environmental_impact.recommendation =
        "Immediate cleanup required - High plastic pollution detected") ∧
    ((process_detection_results results).environmental_impact.severity = "Medium" →
      (process_detection_results results).environmental_impact.recommendation =
        "Cleanup recommended - Moderate plastic pollution found") ∧
    ((process_detection_results results).environmental_impact.severity = "Low" →
      (process_detection_results results).environmental_impact.recommendation =
        "Monitor area - Low level plastic pollution detected") := by
  refine ⟨?_, ?_, ?_⟩ <;> intro hs <;> rw [process_recommendation results h, hs] <;> rfl

/-- Witness for C8 at a report with two detections (severity Medium). -/
theorem recommendation_matches_severity_witness :
    1 ≤ (process_detection_results
      [⟨some ⟨2, some [1/2, 1/2], some [0, 0],
        some [(0, 0, 1, 1), (0, 0, 1, 1)]⟩⟩]).detections ∧
    ((process_detection_results
        [⟨some ⟨2, some [1/2, 1/2], some [0, 0],
          some [(0, 0, 1, 1), (0, 0, 1, 1)]⟩⟩]).environmental_impact.severity = "Medium" →
      (process_detection_results
        [⟨some ⟨2, some [1/2, 1/2], some [0, 0],
          some [(0, 0, 1, 1), (0, 0, 1, 1)]⟩⟩]).environmental_impact.recommendation =
        "Cleanup recommended - Moderate plastic pollution found") :=
  ⟨by decide,
    (recommendation_matches_severity
      [⟨some ⟨2, some [1/2, 1/2], some [0, 0],
        some [(0, 0, 1, 1), (0, 0, 1, 1)]⟩⟩] (by decide)).2.1⟩

/-! ## C4: staged-file cleanup -/

/-- A guarded cleanup never raises: the `os.remove` is only attempted
when the file exists. -/
theorem cleanup_isSome (p : String) (s : List String) :
    (cleanup p s).isSome = true := by
  unfold cleanup os_remove
  split_ifs <;> simp

/-- A successful cleanup of a freshly staged file leaves the file absent. -/
theorem cleanup_cons_not_mem (p : String) (s s' : List String)
    (h : cleanup p (p :: s) = some s') : p ∉ s' := by
  have hp : p ∈ p :: s := List.mem_cons_self p s
  rw [cleanup, if_pos hp, os_remove, if_pos hp, Option.some_inj] at h
  subst h
  simp

/-- C4 counterexample: a request with the model loaded, a valid image
file, and a detector that raises, completes with a 500 failure response
while its staged file is still in the upload folder: cleanup is skipped
on the failure path. -/
theorem staged_file_persists_on_failure :
    (detect_plastic true ⟨some ⟨"a.jpg"⟩, none⟩ (fun _ => none)
        (fun _ _ => .error "boom") none "x" []).1.statusOf = 500 ∧
    uploadPath "x" ∈
      (detect_plastic true ⟨some ⟨"a.jpg"⟩, none⟩ (fun _ => none)
        (fun _ _ => .error "boom") none "x" []).2.1 := by
  exact ⟨rfl, by decide⟩

/-- C4 amended: on the success path the staged upload file is absent
after the request completes, and the cleanup is guarded so that it never
raises on a missing file; on the failure path after staging the file may
remain. -/
theorem staged_file_absent_on_success (modelLoaded : Bool) (req : SingleRequest)
    (parseFloat : String → Option ℚ)
    (predict : String → ℚ → Except String (List YoloResult))
    (annotated : Option String) (file_id : String) (store : List String)
    (h : (detect_plastic modelLoaded req parseFloat predict annotated
        file_id store).1.statusOf = 200) :
    uploadPath file_id ∉
      (detect_plastic modelLoaded req parseFloat predict annotated
        file_id store).2.1 := by
  cases modelLoaded with
  | false => simp [detect_plastic, SingleOutcome.statusOf] at h
  | true =>
    rcases hi : req.image with - | f
    · simp [detect_plastic, hi, SingleOutcome.statusOf] at h
    · by_cases hf : f.filename = ""
      · simp [detect_plastic, hi, hf, SingleOutcome.statusOf] at h
      · rcases hcf : req.confidence_form with - | s
        · rcases hp : predict (uploadPath file_id) ((4 : ℚ)⁻¹) with e | results
          · simp [detect_plastic, hi, hf, hcf, hp, parseConfidence, one_div,
              SingleOutcome.statusOf] at h
          · simp [detect_plastic, hi, hf, hcf, hp, parseConfidence, one_div,
              cleanup, os_remove, SingleOutcome.statusOf] at h ⊢
        · rcases hps : parseFloat s with - | conf
          · simp [detect_plastic, hi, hf, hcf, hps, parseConfidence,
              SingleOutcome.statusOf] at h
          · rcases hp : predict (uploadPath file_id) conf with e | results
            · simp [detect_plastic, hi, hf, hcf, hps, hp, parseConfidence,
                SingleOutcome.statusOf] at h
            · simp [detect_plastic, hi, hf, hcf, hps, hp, parseConfidence,
                cleanup, os_remove, SingleOutcome.statusOf] at h ⊢

/-- Witness for the amended C4: a successful request leaves the upload
folder without the staged file. -/
theorem staged_file_absent_on_success_witness :
    (detect_plastic true ⟨some ⟨"a.jpg"⟩, none⟩ (fun _ => none)
        (fun _ _ => .ok []) none "x" []).1.statusOf = 200 ∧
    uploadPath "x" ∉
      (detect_plastic true ⟨some ⟨"a.jpg"⟩, none⟩ (fun _ => none)
        (fun _ _ => .ok []) none "x" []).2.1 :=
  ⟨rfl,
    staged_file_absent_on_success true ⟨some ⟨"a.jpg"⟩, none⟩ (fun _ => none)
      (fun _ _ => .ok []) none "x" [] rfl⟩

/-! ## C6: single-image validation errors -/

/-- C6: with the model loaded, a request without an `image` file field
gets 400 `No image file provided`, and one whose file has an empty
filename gets 400 `No image file selected`; in both cases the upload
folder is unchanged (nothing staged) and the detector receives no
call. -/
theorem validation_errors (req : SingleRequest)
    (parseFloat : String → Option ℚ)
    (predict : String → ℚ → Except String (List YoloResult))
    (annotated : Option String) (file_id : String) (store : List String) :
    (req.image = none →
      detect_plastic true req parseFloat predict annotated file_id store =
        (.errorResp 400 "No image file provided", store, [])) ∧
    (∀ f, req.image = some f → f.filename = "" →
      detect_plastic true req parseFloat predict annotated file_id store =
        (.errorResp 400 "No image file selected", store, [])) := by
  constructor
  · intro hi
    simp [detect_plastic, hi]
  · intro f hi hf
    simp [detect_plastic, hi, hf]

/-- Witness for C6 at the two concrete invalid requests. -/
theorem validation_errors_witness :
    detect_plastic true ⟨none, none⟩ (fun _ => none) (fun _ _ => .ok [])
        none "x" [] =
      (.errorResp 400 "No image file provided", [], []) ∧
    detect_plastic true ⟨some ⟨""⟩, none⟩ (fun _ => none) (fun _ _ => .ok [])
        none "x" [] =
      (.errorResp 400 "No image file selected", [], []) :=
  ⟨(validation_errors ⟨none, none⟩ (fun _ => none) (fun _ _ => .ok [])
      none "x" []).1 rfl,
   (validation_errors ⟨some ⟨""⟩, none⟩ (fun _ => none) (fun _ _ => .ok [])
      none "x" []).2 ⟨""⟩ rfl rfl⟩

/-! ## C9: unparseable confidence form value -/

/-- C9: with the model loaded and a valid image, a `confidence` form
value on which `float(...)` raises does not give a 400: the file is
staged first, the conversion failure is caught at the orchestrator
boundary, and the request returns 500 with the message prefixed
"Detection failed: "; the staged file is still in the upload folder and
the detector was never invoked. -/
theorem bad_confidence_is_500 (f : UploadedFile) (s : String)
    (parseFloat : String → Option ℚ)
    (predict : String → ℚ → Except String (List YoloResult))
    (annotated : Option String) (file_id : String) (store : List String)
    (hf : f.filename ≠ "") (hs : parseFloat s = none) :
    detect_plastic true ⟨some f, some s⟩ parseFloat predict annotated
        file_id store =
      (.errorResp 500 ("Detection failed: " ++ floatErrorMsg s),
        uploadPath file_id :: store, []) := by
  simp [detect_plastic, hf, hs, parseConfidence]

/-- Witness for C9: a request with confidence form value "abc". -/
theorem bad_confidence_is_500_witness :
    (⟨"a.jpg"⟩ : UploadedFile).filename ≠ "" ∧
    (fun _ => (none : Option ℚ)) "abc" = none ∧
    detect_plastic true ⟨some ⟨"a.jpg"⟩, some "abc"⟩ (fun _ => none)
        (fun _ _ => .ok []) none "x" [] =
      (.errorResp 500 ("Detection failed: " ++ floatErrorMsg "abc"),
        uploadPath "x" :: [], []) :=
  ⟨by decide, rfl,
    bad_confidence_is_500 ⟨"a.jpg"⟩ "abc" (fun _ => none) (fun _ _ => .ok [])
      none "x" [] (by decide) rfl⟩

/-! ## C7 and C10: batch endpoint -/

/-- Removing a freshly staged path succeeds and filters it out. -/
theorem cleanup_cons (p : String) (s : List String) :
    cleanup p (p :: s) = some ((p :: s).filter (fun q => q ≠ p)) := by
  rw [cleanup, if_pos (List.mem_cons_self p s), os_remove,
    if_pos (List.mem_cons_self p s)]

/-- When every detector call succeeds, the batch loop returns: it skips
empty filenames, emits one entry per processed file in input order, and
calls the detector once per processed file, always at threshold 1/4. -/
theorem batchLoop_ok (predict : String → ℚ → Except String (List YoloResult))
    (batch_id : String)
    (hs : ∀ p, ∃ r, predict p (1/4) = Except.ok r) :
    ∀ (pairs : List (Nat × UploadedFile)) (store : List String),
      ∃ entries store1,
        batchLoop predict batch_id pairs store =
          .ok (entries, store1,
            (pairs.filter (fun q => q.2.filename ≠ "")).map
              (fun q => (uploadPath (batch_id ++ "_" ++ toString q.1), (1/4 : ℚ)))) ∧
        entries.map BatchEntry.filename =
          (pairs.filter (fun q => q.2.filename ≠ "")).map (fun q => q.2.filename) := by
  intro pairs
  induction pairs with
  | nil => intro store; exact ⟨[], store, rfl, rfl⟩
  | cons hd rest ih =>
    obtain ⟨i, f⟩ := hd
    intro store
    by_cases hf : f.filename = ""
    · obtain ⟨entries, store1, heq, hmap⟩ := ih store
      refine ⟨entries, store1, ?_, ?_⟩
      · rw [batchLoop, if_pos hf, heq, List.filter_cons,
          if_neg (by simp [hf])]
      · rw [List.filter_cons, if_neg (by simp [hf])]
        exact hmap
    · obtain ⟨r, hr⟩ := hs (uploadPath (batch_id ++ "_" ++ toString i))
      obtain ⟨entries, store1, heq, hmap⟩ :=
        ih (store.filter (fun p => p ≠ uploadPath (batch_id ++ "_" ++ toString i)))
      refine ⟨⟨f.filename, batch_id ++ "_" ++ toString i,
        process_detection_results r⟩ :: entries, store1, ?_, ?_⟩
      · simp only [batchLoop, if_neg hf, hr, cleanup_cons, List.filter_cons,
          List.map_cons]
        rw [if_pos (decide_eq_true hf),
          if_neg (show ¬(decide (uploadPath (batch_id ++ "_" ++ toString i) ≠
            uploadPath (batch_id ++ "_" ++ toString i)) = true) by simp),
          heq]
        simp only [List.map_cons]
      · rw [List.map_cons, List.filter_cons, if_pos (decide_eq_true hf),
          List.map_cons, hmap]

/-- Filtering and projecting an enumerated list on a predicate over the
element alone forgets the indices. -/
theorem enumFrom_filter_map {β : Type} (g : UploadedFile → β) :
    ∀ (n : Nat) (l : List UploadedFile),
      ((List.enumFrom n l).filter (fun q => q.2.filename ≠ "")).map
          (fun q => g q.2) =
        (l.filter (fun f => f.filename ≠ "")).map g := by
  intro n l
  induction l generalizing n with
  | nil => rfl
  | cons a l ih =>
    simp only [List.enumFrom, List.filter_cons]
    by_cases ha : a.filename = ""
    · rw [if_neg (by simp [ha]), if_neg (by simp [ha])]
      exact ih (n + 1)
    · rw [if_pos (decide_eq_true ha), if_pos (decide_eq_true ha),
        List.map_cons, List.map_cons, ih (n + 1)]

/-- C7: with the model loaded, a non-empty file list, and a detector
that succeeds, the batch endpoint processes each non-empty-filename
entry at the fixed threshold 1/4 (one detector call per processed
file), skips empty filenames, returns the batch identifier with
`processed_images` equal to the number of non-skipped entries and the
per-image results in submission order, and its output is independent of
any client-supplied confidence value. -/
theorem batch_fixed_threshold (clientConf clientConf2 : Option String)
    (files : List UploadedFile)
    (predict : String → ℚ → Except String (List YoloResult))
    (batch_id : String) (store : List String)
    (hne : files ≠ [])
    (hs : ∀ p, ∃ r, predict p (1/4) = Except.ok r) :
    (∃ entries store1 calls,
      batch_detect true clientConf files predict batch_id store =
        (.ok batch_id entries.length entries, store1, calls) ∧
      entries.map BatchEntry.filename =
        (files.filter (fun f => f.filename ≠ "")).map UploadedFile.filename ∧
      entries.length = (files.filter (fun f => f.filename ≠ "")).length ∧
      ∀ c ∈ calls, c.2 = (1/4 : ℚ)) ∧
    batch_detect true clientConf files predict batch_id store =
      batch_detect true clientConf2 files predict batch_id store := by
  constructor
  · obtain ⟨entries, store1, heq, hmap⟩ := batchLoop_ok predict batch_id hs files.enum store
    have hmap2 : entries.map BatchEntry.filename =
        (files.filter (fun f => f.filename ≠ "")).map UploadedFile.filename :=
      hmap.trans (enumFrom_filter_map UploadedFile.filename 0 files)
    refine ⟨entries, store1,
      (files.enum.filter (fun q => q.2.filename ≠ "")).map
        (fun q => (uploadPath (batch_id ++ "_" ++ toString q.1), (1/4 : ℚ))),
      ?_, hmap2, ?_, ?_⟩
    · simp only [batch_detect]
      rw [if_neg (by simp), if_neg hne, heq]
    · have := congrArg List.length hmap2
      simpa using this
    · intro c hc
      simp only [List.mem_map] at hc
      obtain ⟨q, -, rfl⟩ := hc
      rfl
  · rfl

/-- Witness for C7: two valid images plus one empty-filename entry give
`processed_images == 2`, results in submission order. -/
theorem batch_fixed_threshold_witness :
    (∃ entries store1 calls,
      batch_detect true none [⟨"a.jpg"⟩, ⟨"b.jpg"⟩, ⟨""⟩]
          (fun _ _ => .ok []) "B" [] =
        (.ok "B" entries.length entries, store1, calls) ∧
      entries.map BatchEntry.filename =
        (([⟨"a.jpg"⟩, ⟨"b.jpg"⟩, ⟨""⟩] : List UploadedFile).filter
          (fun f => f.filename ≠ "")).map UploadedFile.filename ∧
      entries.length =
        (([⟨"a.jpg"⟩, ⟨"b.jpg"⟩, ⟨""⟩] : List UploadedFile).filter
          (fun f => f.filename ≠ "")).length ∧
      ∀ c ∈ calls, c.2 = (1/4 : ℚ)) ∧
    (batch_detect true none [⟨"a.jpg"⟩, ⟨"b.jpg"⟩, ⟨""⟩]
        (fun _ _ => .ok []) "B" []).1 =
      .ok "B" 2 [⟨"a.jpg", "B_0", emptyReport⟩, ⟨"b.jpg", "B_1", emptyReport⟩] :=
  ⟨(batch_fixed_threshold none (some "0.9") [⟨"a.jpg"⟩, ⟨"b.jpg"⟩, ⟨""⟩]
      (fun _ _ => .ok []) "B" [] (by decide) (fun p => ⟨[], rfl⟩)).1,
   by decide⟩

/-- A batch loop over files that all have empty filenames skips
everything. -/
theorem batchLoop_all_empty
    (predict : String → ℚ → Except String (List YoloResult))
    (batch_id : String) :
    ∀ (l : List UploadedFile) (n : Nat) (store : List String),
      (∀ f ∈ l, f.filename = "") →
      batchLoop predict batch_id (List.enumFrom n l) store =
        .ok ([], store, []) := by
  intro l
  induction l with
  | nil => intro n store _; rfl
  | cons a l ih =>
    intro n store h
    have ha := h a (List.mem_cons_self a l)
    simp only [List.enumFrom, batchLoop, if_pos ha]
    exact ih (n + 1) store (fun f hf => h f (List.mem_cons_of_mem a hf))

/-- C10: a non-empty file list whose entries all have empty filenames is
not an error: the batch endpoint returns the 200 body with
`processed_images = 0` and no results, leaving the upload folder
untouched and never calling the detector; the 400
`No image files provided` branch fires only for an empty list. -/
theorem batch_all_empty_filenames (clientConf : Option String)
    (files : List UploadedFile)
    (predict : String → ℚ → Except String (List YoloResult))
    (batch_id : String) (store : List String) :
    (files ≠ [] → (∀ f ∈ files, f.filename = "") →
      batch_detect true clientConf files predict batch_id store =
        (.ok batch_id 0 [], store, [])) ∧
    (files = [] →
      batch_detect true clientConf files predict batch_id store =
        (.errorResp 400 "No image files provided", store, [])) := by
  constructor
  · intro hne h
    simp only [batch_detect]
    rw [if_neg (by simp), if_neg hne,
      show files.enum = List.enumFrom 0 files from rfl,
      batchLoop_all_empty predict batch_id files 0 store h]
    rfl
  · intro he
    subst he
    rfl

/-- Witness for C10: two entries with empty filenames give a 200 with
zero processed images; the empty list gives the 400. -/
theorem batch_all_empty_filenames_witness :
    batch_detect true none [⟨""⟩, ⟨""⟩] (fun _ _ => .ok []) "B" [] =
      (.ok "B" 0 [], [], []) ∧
    batch_detect true none [] (fun _ _ => .ok []) "B" [] =
      (.errorResp 400 "No image files provided", [], []) :=
  ⟨(batch_all_empty_filenames none [⟨""⟩, ⟨""⟩] (fun _ _ => .ok [])
      "B" []).1 (by decide) (by decide),
   (batch_all_empty_filenames none [] (fun _ _ => .ok []) "B" []).2 rfl⟩

end RiverPlastic
